import Mathlib

/-!
Shallow embedding of the telemetry / handover / flow-statistics layer of
`cap5_rev-05.12-uplink_6gNB_10UE_fixed_4UE_HANDOVER.cc`.

Conventions:
* Simulated time and all floating-point quantities of the C++ code are
  modelled as exact rationals (`ℚ`) where the code is discrete-arithmetic,
  and as reals (`ℝ`) where the code uses `log10` / `sqrt` / trigonometry.
* The cumulative traffic counters (`rxBytes`, `rxPackets`, `lostPackets`)
  are unsigned integers in the code; they are modelled as `ℕ`.  The
  differences the code takes are modelled as exact subtraction; the
  FlowMonitor counters are cumulative (monotinically non-decreasing), so
  the unsigned machine subtraction and the exact subtraction agree on
  every reachable input.
* `std::map` state is modelled as an association list, `Option` models a
  possibly-absent map entry (`find(...) == end()`).
-/

namespace Stadium

/-! ### Flow statistics (TraceFlowMonitorStats, lines 334-424)

`FlowMonitor::FlowStats` as consumed by the code: cumulative received
bytes and packets, cumulative delay and jitter sums (seconds), cumulative
lost-packet count. -/

structure FlowStats where
  rxBytes : ℕ
  rxPackets : ℕ
  delaySum : ℚ
  jitterSum : ℚ
  lostPackets : ℕ
deriving DecidableEq

/-- The five-tuple of a flow as used by the code: source and destination
IPv4 addresses, each modelled as a 32-bit number. -/
structure FiveTuple where
  src : ℕ
  dst : ℕ
deriving DecidableEq

/-- One flow as seen on a differencer tick: its id, classifier tuple and
the current cumulative statistics fetched from the monitor. -/
structure Flow where
  flowId : ℕ
  tuple : FiveTuple
  stats : FlowStats
deriving DecidableEq

/-- Line 355-357: `t.sourceAddress.CombineMask("255.0.0.0") == "7.0.0.0"`.
Masking an IPv4 address with 255.0.0.0 keeps its top octet, i.e. the
quotient by 2^24; the flow is uplink when that octet is 7. -/
def ueSubnetMatches (addr : ℕ) : Bool :=
  addr / 2 ^ 24 == 7

/-- A node of the simulation as inspected by the reverse address lookup of
lines 361-373: its node id and, when the node has an IPv4 stack with more
than one interface, the local address of interface 1. -/
structure NodeInfo where
  nodeId : ℕ
  ueAddr : Option ℕ
deriving DecidableEq

/-- Lines 359-373: `ueId` starts at the sentinel 0; the first node whose
interface-1 address equals the flow's UE-side address overwrites it (the
loop breaks at the first match). -/
def resolveUeId (nodes : List NodeInfo) (ueIp : ℕ) : ℕ :=
  match nodes.find? (fun n => n.ueAddr == some ueIp) with
  | some n => n.nodeId
  | none => 0

/-- Line 375: `double interval = 0.1;`. -/
def interval : ℚ := 1 / 10

/-- The per-tick metrics computed for one flow, plus the `rxIncreased`
flag that feeds the watchdog activity bridge. -/
structure FlowMetrics where
  throughput : ℚ
  latency : ℚ
  jitter : ℚ
  packetLoss : ℕ
  rxIncreased : Bool
deriving DecidableEq

/-- Lines 375-403: differencing of the current cumulative statistics
against the previous snapshot (if any).  The rate formulas only run under
the guard `flowStats.rxPackets > lastStats.rxPackets`; otherwise all three
rate metrics keep their initialisation value 0. -/
def computeMetrics (last : Option FlowStats) (cur : FlowStats) : FlowMetrics :=
  match last with
  | some l =>
      if l.rxPackets < cur.rxPackets then
        { throughput := ((cur.rxBytes : ℚ) - (l.rxBytes : ℚ)) * 8 / (interval * 1000)
          latency := (cur.delaySum - l.delaySum) * 1000 / ((cur.rxPackets : ℚ) - (l.rxPackets : ℚ))
          jitter := (cur.jitterSum - l.jitterSum) * 1000 / ((cur.rxPackets : ℚ) - (l.rxPackets : ℚ))
          packetLoss := cur.lostPackets - l.lostPackets
          rxIncreased := true }
      else
        { throughput := 0
          latency := 0
          jitter := 0
          packetLoss := cur.lostPackets - l.lostPackets
          rxIncreased := false }
  | none =>
      if 0 < cur.rxPackets then
        { throughput := (cur.rxBytes : ℚ) * 8 / (interval * 1000)
          latency := cur.delaySum * 1000 / (cur.rxPackets : ℚ)
          jitter := cur.jitterSum * 1000 / (cur.rxPackets : ℚ)
          packetLoss := cur.lostPackets
          rxIncreased := true }
      else
        { throughput := 0
          latency := 0
          jitter := 0
          packetLoss := cur.lostPackets
          rxIncreased := false }

/-- One row of `flow_stats.csv` (line 412-421); written once per flow per
tick, unconditionally. -/
structure FlowRow where
  time : ℚ
  ueId : ℕ
  flowId : ℕ
  isUplink : Bool
  src : ℕ
  dst : ℕ
  throughput : ℚ
  latency : ℚ
  jitter : ℚ
  packetLoss : ℕ
deriving DecidableEq

/-- Lookup in the `lastFlowStats` map (line 382). -/
def lookupStats (m : List (ℕ × FlowStats)) (fid : ℕ) : Option FlowStats :=
  match m.find? (fun p => p.1 == fid) with
  | some p => some p.2
  | none => none

/-- Map update `lastFlowStats[flowId] = flowStats` (line 405). -/
def insertStats (m : List (ℕ × FlowStats)) (fid : ℕ) (s : FlowStats) :
    List (ℕ × FlowStats) :=
  if m.any (fun p => p.1 == fid) then
    m.map (fun p => if p.1 == fid then (fid, s) else p)
  else
    m ++ [(fid, s)]

/-- Map update `lastRefereeActivityTime[ueId] = now` (line 409). -/
def insertActivity (m : List (ℕ × ℚ)) (ueId : ℕ) (now : ℚ) : List (ℕ × ℚ) :=
  if m.any (fun p => p.1 == ueId) then
    m.map (fun p => if p.1 == ueId then (ueId, now) else p)
  else
    m ++ [(ueId, now)]

/-- Lines 351-421, the body of the per-flow loop: classify direction,
reverse-map the UE-side address to a node id (sentinel 0 on failure),
difference the counters, store the new snapshot, feed the watchdog
activity bridge for uplink referee flows with increased reception, and
produce the log row that is written for every flow. -/
def processOneFlow (now : ℚ) (nodes : List NodeInfo) (referees : List ℕ)
    (st : List (ℕ × FlowStats) × List (ℕ × ℚ)) (f : Flow) :
    (List (ℕ × FlowStats) × List (ℕ × ℚ)) × FlowRow :=
  let dirUL := ueSubnetMatches f.tuple.src
  let ueIp := if dirUL then f.tuple.src else f.tuple.dst
  let ueId := resolveUeId nodes ueIp
  let m := computeMetrics (lookupStats st.1 f.flowId) f.stats
  let newStats := insertStats st.1 f.flowId f.stats
  let newAct :=
    if dirUL && m.rxIncreased && referees.contains ueId then
      insertActivity st.2 ueId now
    else
      st.2
  ((newStats, newAct),
   { time := now
     ueId := ueId
     flowId := f.flowId
     isUplink := dirUL
     src := f.tuple.src
     dst := f.tuple.dst
     throughput := m.throughput
     latency := m.latency
     jitter := m.jitter
     packetLoss := m.packetLoss })

/-- Result of one whole `TraceFlowMonitorStats` invocation: the rows
appended to `flow_stats.csv`, the updated snapshot map, the updated
activity map, and the delay after which the tick reschedules itself
(`none` would mean it stops). -/
structure FlowTickResult where
  rows : List FlowRow
  lastStats : List (ℕ × FlowStats)
  activity : List (ℕ × ℚ)
  reschedule : Option ℚ
deriving DecidableEq

/-- Lines 334-424: iterate the per-flow body over every flow reported by
the monitor, then (line 423) reschedule unconditionally after 0.1 s —
there is no horizon check around this `Simulator::Schedule` call. -/
def traceFlowTick (now : ℚ) (nodes : List NodeInfo) (referees : List ℕ)
    (lastStats : List (ℕ × FlowStats)) (activity : List (ℕ × ℚ))
    (flows : List Flow) : FlowTickResult :=
  let step := fun (acc : (List (ℕ × FlowStats) × List (ℕ × ℚ)) × List FlowRow)
      (f : Flow) =>
    let r := processOneFlow now nodes referees acc.1 f
    (r.1, acc.2 ++ [r.2])
  let out := flows.foldl step ((lastStats, activity), [])
  { rows := out.2
    lastStats := out.1.1
    activity := out.1.2
    reschedule := some (1 / 10) }

/-! ### Handover detection (LogPowerAndHandover, lines 162-254) -/

/-- The mutable state the detection block of `LogPowerAndHandover`
touches for one entity: the `previousServingCell` entry (absent before
the first tick), the three handover counters, and the number of lines in
the handover narrative log. -/
structure HOState where
  prev : Option ℕ
  handoverCount : ℕ
  manualHandoverCount : ℕ
  simHandovers : ℕ
  narrativeLines : ℕ
deriving DecidableEq

/-- One row of `power_measurements_stadium.csv` (lines 241-247); written
every tick with the handover flag. -/
structure PowerRow where
  ueId : ℕ
  bestGnbId : ℕ
  handoverEvent : Bool
deriving DecidableEq

/-- Lines 203-247: starting from `handoverDetected = false`, a handover
is detected exactly when a previous serving cell is stored and differs
from the freshly computed best cell; in that case all three counters are
incremented and one narrative line is appended.  In every case the stored
serving cell is overwritten with the new best cell and a measurement row
carrying the detection flag is produced. -/
def logPowerDetect (s : HOState) (ueId best : ℕ) : HOState × PowerRow :=
  let detected : Bool :=
    match s.prev with
    | some p => p != best
    | none => false
  let s1 :=
    if detected then
      { s with
        handoverCount := s.handoverCount + 1
        manualHandoverCount := s.manualHandoverCount + 1
        simHandovers := s.simHandovers + 1
        narrativeLines := s.narrativeLines + 1 }
    else
      s
  ({ s1 with prev := some best },
   { ueId := ueId, bestGnbId := best, handoverEvent := detected })

/-- Lines 250-253: `LogPowerAndHandover` only reschedules itself (after
0.5 s) while `Simulator::Now().GetSeconds() < 14.5`. -/
def logPowerReschedule (now : ℚ) : Option ℚ :=
  if now < 29 / 2 then some (1 / 2) else none

/-- A full `LogPowerAndHandover` invocation at simulated time `now` for
one entity, with the best cell already selected: detection plus the
conditional rescheduling. -/
def logPowerTick (now : ℚ) (s : HOState) (ueId best : ℕ) :
    HOState × PowerRow × Option ℚ :=
  let r := logPowerDetect s ueId best
  (r.1, r.2, logPowerReschedule now)

/-! ### Connectivity watchdog (CheckAndReconnectUes, lines 274-328) -/

/-- Line 285: `const double inactivityThreshold = 1.5;`. -/
def inactivityThreshold : ℚ := 3 / 2

/-- Line 326: the watchdog reschedules itself every 2.0 s. -/
def watchdogInterval : ℚ := 2

/-- Lines 298-307: the entity is considered active when an activity
timestamp is recorded (the `lowest()` sentinel models an absent map
entry) and `now - lastActiveTime <= inactivityThreshold`; the watchdog
triggers a forced reattachment exactly when the entity is not active. -/
def watchdogTriggers (now : ℚ) (lastActive : Option ℚ) : Bool :=
  let isActive : Bool :=
    match lastActive with
    | some t => decide (now - t ≤ inactivityThreshold)
    | none => false
  !isActive

/-- Lines 308-321: on trigger the entity is forcibly reattached and its
activity timestamp is reset to `now`; otherwise nothing changes.  Returns
(whether a forced reattachment happened, the new activity entry). -/
def watchdogStep (now : ℚ) (lastActive : Option ℚ) : Bool × Option ℚ :=
  if watchdogTriggers now lastActive then (true, some now) else (false, lastActive)

/-- Lines 324-327: the watchdog reschedules itself after 2.0 s while
`now < 14.5`. -/
def watchdogReschedule (now : ℚ) : Option ℚ :=
  if now < 29 / 2 then some watchdogInterval else none

/-! ### RSRP model and best-cell selection (LogPowerAndHandover, lines 170-201) -/

/-- An `ns3::Vector` position. -/
structure Vec3 where
  x : ℝ
  y : ℝ
  z : ℝ

/-- Lines 185-189: 3D Euclidean distance between the entity and a cell. -/
noncomputable def dist3D (a b : Vec3) : ℝ :=
  Real.sqrt ((a.x - b.x) ^ 2 + (a.y - b.y) ^ 2 + (a.z - b.z) ^ 2)

/-- Lines 191-193: simplified 3GPP UMi path-loss model,
`pathLoss = 32.4 + 21*log10(distance) + 20*log10(3.7)` and
`rsrp = 35 - pathLoss` (35 dBm transmit power). -/
noncomputable def rsrpOfDistance (d : ℝ) : ℝ :=
  35 - (32.4 + 21 * Real.logb 10 d + 20 * Real.logb 10 3.7)

/-- The signal proxy of a cell at position `g` seen from the entity at
position `ue`. -/
noncomputable def rsrpAt (ue g : Vec3) : ℝ :=
  rsrpOfDistance (dist3D ue g)

/-- Lines 173-201: the selection loop.  `best` carries
`(bestRsrp, bestGnbId, bestDistance)`, `i` is the id of the next cell to
scan; a cell replaces the running best exactly when its RSRP is strictly
greater (`rsrp > bestRsrp`). -/
noncomputable def scanBest (ue : Vec3) : ℕ → ℝ × ℕ × ℝ → List Vec3 → ℝ × ℕ × ℝ
  | _, best, [] => best
  | i, best, g :: gs =>
      scanBest ue (i + 1)
        (if best.1 < rsrpAt ue g then (rsrpAt ue g, i, dist3D ue g) else best) gs

/-- Lines 173-175: the loop starts from
`bestRsrp = -150.0, bestGnbId = 0, bestDistance = 0.0` and scans the
cells in ascending id order. -/
noncomputable def selectBestCell (ue : Vec3) (gnbs : List Vec3) : ℝ × ℕ × ℝ :=
  scanBest ue 0 (-150, 0, 0) gnbs

/-! ### Referee circular movement (MoveArbitroCircular, lines 70-100) -/

/-- Line 65: `const double CAMPO_RADIUS = 60.0;`. -/
noncomputable def CAMPO_RADIUS : ℝ := 60

/-- Line 66: `const double ARBITRO_HEIGHT = 1.7;`. -/
noncomputable def ARBITRO_HEIGHT : ℝ := 1.7

/-- Line 67: `const double ARBITRO_SPEED = 5.0;`. -/
noncomputable def ARBITRO_SPEED : ℝ := 5

/-- Line 83: `deltaAngle = (ARBITRO_SPEED * 0.5) / CAMPO_RADIUS`. -/
noncomputable def deltaAngle : ℝ := ARBITRO_SPEED * 0.5 / CAMPO_RADIUS

/-- Line 79: initial angle `(ueId * 2.0 * M_PI) / 4.0` of a referee. -/
noncomputable def initAngle (ueId : ℕ) : ℝ :=
  ueId * 2 * Real.pi / 4

/-- Lines 87-91: the position written for angle `θ`:
`(CAMPO_RADIUS*cos θ, CAMPO_RADIUS*sin θ, ARBITRO_HEIGHT)`. -/
noncomputable def posOnField (θ : ℝ) : Vec3 :=
  ⟨CAMPO_RADIUS * Real.cos θ, CAMPO_RADIUS * Real.sin θ, ARBITRO_HEIGHT⟩

/-- Line 84: each invocation first advances the stored angle by
`deltaAngle`.  `arbitroAngle ueId k` is the angle used by the
(k+1)-st invocation of `MoveArbitroCircular` for referee `ueId`. -/
noncomputable def arbitroAngle (ueId : ℕ) : ℕ → ℝ
  | 0 => initAngle ueId + deltaAngle
  | k + 1 => arbitroAngle ueId k + deltaAngle

/-- The position written by the (k+1)-st invocation of
`MoveArbitroCircular` for referee `ueId`. -/
noncomputable def arbitroWrittenPos (ueId k : ℕ) : Vec3 :=
  posOnField (arbitroAngle ueId k)

/-! ### Helper lemmas -/

lemma logPowerDetect_count_le (s : HOState) (ueId best : ℕ) :
    s.handoverCount ≤ (logPowerDetect s ueId best).1.handoverCount := by
  cases hp : s.prev with
  | none => simp [logPowerDetect, hp]
  | some p =>
      by_cases hb : p = best
      · simp [logPowerDetect, hp, hb]
      · simp [logPowerDetect, hp, hb]

lemma foldl_logPowerDetect_count_le (ueId : ℕ) (bests : List ℕ) :
    ∀ s : HOState,
      s.handoverCount ≤
        (bests.foldl (fun t b => (logPowerDetect t ueId b).1) s).handoverCount := by
  induction bests with
  | nil => intro s; simp
  | cons b bs ih =>
      intro s
      exact le_trans (logPowerDetect_count_le s ueId b) (ih _)

/-! ### Claims -/

/-- C4: for every flow, if the current cumulative snapshot equals the
previous stored snapshot (so the packet delta is zero), the differencer
reports throughput, mean latency and mean jitter all equal to zero for
that tick instead of dividing by zero or failing. -/
theorem c4_identical_snapshots_zero_rates (l : FlowStats) :
    (computeMetrics (some l) l).throughput = 0 ∧
    (computeMetrics (some l) l).latency = 0 ∧
    (computeMetrics (some l) l).jitter = 0 := by
  simp [computeMetrics]

/-- C5: when the packet delta is positive, the differencer computes
`throughput_kbps = delta_bytes * 8 / (interval * 1000)`,
`mean latency = delta_delaySum * 1000 / delta_packets` and
`mean jitter = delta_jitterSum * 1000 / delta_packets`, with the
interval fixed at 0.1 s by the code. -/
theorem c5_rate_formulas (l cur : FlowStats) (h : l.rxPackets < cur.rxPackets) :
    (computeMetrics (some l) cur).throughput
        = ((cur.rxBytes : ℚ) - (l.rxBytes : ℚ)) * 8 / (interval * 1000) ∧
    (computeMetrics (some l) cur).latency
        = (cur.delaySum - l.delaySum) * 1000 / ((cur.rxPackets : ℚ) - (l.rxPackets : ℚ)) ∧
    (computeMetrics (some l) cur).jitter
        = (cur.jitterSum - l.jitterSum) * 1000 / ((cur.rxPackets : ℚ) - (l.rxPackets : ℚ)) := by
  simp [computeMetrics, h]

/-- Witness for C5: the spec's concrete scenario.  Cumulative counters
`(rxBytes = 0, rxPackets = 0)` on tick 1 and
`(rxBytes = 12500, rxPackets = 10)` on tick 2 yield exactly 1000 kbps. -/
theorem c5_rate_formulas_witness :
    (⟨0, 0, 0, 0, 0⟩ : FlowStats).rxPackets
        < (⟨12500, 10, 0, 0, 0⟩ : FlowStats).rxPackets ∧
    (computeMetrics (some ⟨0, 0, 0, 0, 0⟩) ⟨12500, 10, 0, 0, 0⟩).throughput = 1000 := by
  refine ⟨by decide, ?_⟩
  have h := (c5_rate_formulas ⟨0, 0, 0, 0, 0⟩ ⟨12500, 10, 0, 0, 0⟩ (by decide)).1
  rw [h]
  norm_num [interval]

/-- C1: a handover event is recorded — narrative line appended, counter
incremented, flag set in the measurement row — if and only if a previous
serving cell is stored for the entity and differs from the newly computed
best cell; on the first tick (no stored cell) the selection is stored and
no event is emitted, and the stored cell is always overwritten with the
new best cell. -/
theorem c1_handover_event_iff (s : HOState) (ueId best : ℕ) :
    ((logPowerDetect s ueId best).2.handoverEvent = true
        ↔ ∃ p, s.prev = some p ∧ p ≠ best) ∧
    ((logPowerDetect s ueId best).2.handoverEvent = true
        ↔ ((logPowerDetect s ueId best).1.narrativeLines = s.narrativeLines + 1 ∧
           (logPowerDetect s ueId best).1.handoverCount = s.handoverCount + 1)) ∧
    ((logPowerDetect s ueId best).2.handoverEvent = false
        ↔ ((logPowerDetect s ueId best).1.narrativeLines = s.narrativeLines ∧
           (logPowerDetect s ueId best).1.handoverCount = s.handoverCount)) ∧
    (s.prev = none → (logPowerDetect s ueId best).2.handoverEvent = false) ∧
    (logPowerDetect s ueId best).1.prev = some best := by
  cases hp : s.prev with
  | none => simp [logPowerDetect, hp]
  | some p =>
      by_cases hb : p = best
      · simp [logPowerDetect, hp, hb]
      · simp [logPowerDetect, hp, hb]

/-- Witness for C1: with stored cell 1 and new best cell 2 an event is
emitted; with no stored cell no event is emitted and cell 2 is stored. -/
theorem c1_handover_event_iff_witness :
    (logPowerDetect ⟨some 1, 0, 0, 0, 0⟩ 0 2).2.handoverEvent = true ∧
    (logPowerDetect ⟨none, 0, 0, 0, 0⟩ 0 2).2.handoverEvent = false ∧
    (logPowerDetect ⟨none, 0, 0, 0, 0⟩ 0 2).1.prev = some 2 :=
  ⟨(c1_handover_event_iff ⟨some 1, 0, 0, 0, 0⟩ 0 2).1.mpr ⟨1, rfl, by decide⟩,
   (c1_handover_event_iff ⟨none, 0, 0, 0, 0⟩ 0 2).2.2.2.1 rfl,
   (c1_handover_event_iff ⟨none, 0, 0, 0, 0⟩ 0 2).2.2.2.2⟩

/-- C3: the global handover counter never decreases — neither on a single
detector tick nor across any sequence of detector ticks — and a tick
increments it by exactly 1 when the stored serving cell differs from the
newly computed best cell and by 0 otherwise (including the first tick,
when no cell is stored). -/
theorem c3_handover_counter_monotone (s : HOState) (ueId best : ℕ) :
    s.handoverCount ≤ (logPowerDetect s ueId best).1.handoverCount ∧
    (∀ p, s.prev = some p → p ≠ best →
        (logPowerDetect s ueId best).1.handoverCount = s.handoverCount + 1) ∧
    (s.prev = some best ∨ s.prev = none →
        (logPowerDetect s ueId best).1.handoverCount = s.handoverCount) ∧
    (∀ bests : List ℕ,
        s.handoverCount ≤
          (bests.foldl (fun t b => (logPowerDetect t ueId b).1) s).handoverCount) := by
  refine ⟨logPowerDetect_count_le s ueId best, ?_, ?_, ?_⟩
  · intro p hp hb
    simp [logPowerDetect, hp, hb]
  · rintro (hp | hp) <;> simp [logPowerDetect, hp]
  · intro bests
    exact foldl_logPowerDetect_count_le ueId bests s

/-- Witness for C3: stored cell 1, new best cell 2 increments the counter
from 0 to 1; stored cell 2, new best cell 2 leaves it at 0. -/
theorem c3_handover_counter_monotone_witness :
    (logPowerDetect ⟨some 1, 0, 0, 0, 0⟩ 0 2).1.handoverCount = 0 + 1 ∧
    (logPowerDetect ⟨some 2, 0, 0, 0, 0⟩ 0 2).1.handoverCount = 0 :=
  ⟨(c3_handover_counter_monotone ⟨some 1, 0, 0, 0, 0⟩ 0 2).2.1 1 rfl (by decide),
   (c3_handover_counter_monotone ⟨some 2, 0, 0, 0, 0⟩ 0 2).2.2.1 (Or.inl rfl)⟩

/-- C7: when the flow's UE-side address is not the interface-1 address of
any node, the differencer does not fail: the entity id keeps the sentinel
value 0 and the per-flow log row is still produced with all computed
fields. -/
theorem c7_unresolved_address_sentinel (now : ℚ) (nodes : List NodeInfo)
    (referees : List ℕ) (st : List (ℕ × FlowStats) × List (ℕ × ℚ)) (f : Flow)
    (h : ∀ n ∈ nodes,
        n.ueAddr ≠ some (if ueSubnetMatches f.tuple.src then f.tuple.src else f.tuple.dst)) :
    (processOneFlow now nodes referees st f).2 =
      { time := now
        ueId := 0
        flowId := f.flowId
        isUplink := ueSubnetMatches f.tuple.src
        src := f.tuple.src
        dst := f.tuple.dst
        throughput := (computeMetrics (lookupStats st.1 f.flowId) f.stats).throughput
        latency := (computeMetrics (lookupStats st.1 f.flowId) f.stats).latency
        jitter := (computeMetrics (lookupStats st.1 f.flowId) f.stats).jitter
        packetLoss := (computeMetrics (lookupStats st.1 f.flowId) f.stats).packetLoss } := by
  have hfind :
      nodes.find?
        (fun n => n.ueAddr ==
          some (if ueSubnetMatches f.tuple.src then f.tuple.src else f.tuple.dst)) = none := by
    rw [List.find?_eq_none]
    intro n hn
    simpa using h n hn
  have hre :
      resolveUeId nodes
        (if ueSubnetMatches f.tuple.src then f.tuple.src else f.tuple.dst) = 0 := by
    unfold resolveUeId
    rw [hfind]
  simp [processOneFlow, hre]

/-- Witness for C7: a single node with address 5 cannot resolve the
uplink flow from address `7.0.0.0` (7 * 2^24); the row carries ueId 0. -/
theorem c7_unresolved_address_sentinel_witness :
    (processOneFlow 1 [⟨3, some 5⟩] [] ([], [])
        ⟨1, ⟨7 * 2 ^ 24, 9⟩, ⟨0, 0, 0, 0, 0⟩⟩).2.ueId = 0 := by
  rw [c7_unresolved_address_sentinel 1 [⟨3, some 5⟩] [] ([], [])
        ⟨1, ⟨7 * 2 ^ 24, 9⟩, ⟨0, 0, 0, 0, 0⟩⟩ (by decide)]

/-- C8: the flow-statistics tick reschedules itself unconditionally at
every simulated time — including times at or past the 14.5 s horizon,
where the handover-detection tick has stopped rescheduling. -/
theorem c8_flow_tick_reschedules_unconditionally (now : ℚ) (nodes : List NodeInfo)
    (referees : List ℕ) (lastStats : List (ℕ × FlowStats))
    (activity : List (ℕ × ℚ)) (flows : List Flow) :
    (traceFlowTick now nodes referees lastStats activity flows).reschedule
        = some (1 / 10) ∧
    (29 / 2 ≤ now → logPowerReschedule now = none) := by
  refine ⟨rfl, ?_⟩
  intro h
  simp [logPowerReschedule, not_lt.mpr h]

/-- Witness for C8: at simulated time 15 s (past the horizon) the flow
tick still reschedules while the handover tick does not. -/
theorem c8_flow_tick_reschedules_unconditionally_witness :
    (traceFlowTick 15 [] [] [] [] []).reschedule = some (1 / 10) ∧
    logPowerReschedule 15 = none :=
  ⟨(c8_flow_tick_reschedules_unconditionally 15 [] [] [] [] []).1,
   (c8_flow_tick_reschedules_unconditionally 15 [] [] [] [] []).2 (by norm_num)⟩

/-- C2 counterexample: the watchdog forces a reattachment at time 2 s
(activity last seen at 0 s) and resets the timestamp to 2 s; yet the very
next check, one watchdog interval (2.0 s) later, forces a second
reattachment, because the interval exceeds the 1.5 s threshold. -/
theorem c2_counterexample_next_check_retriggers :
    (watchdogStep 2 (some 0)).1 = true ∧
    (watchdogStep 2 (some 0)).2 = some 2 ∧
    (watchdogStep (2 + watchdogInterval) (some 2)).1 = true := by
  have h1 : inactivityThreshold < (2 : ℚ) := by
    norm_num [inactivityThreshold]
  have h2 : inactivityThreshold < watchdogInterval := by
    norm_num [inactivityThreshold, watchdogInterval]
  refine ⟨?_, ?_, ?_⟩
  · simp [watchdogStep, watchdogTriggers, h1]
  · simp [watchdogStep, watchdogTriggers, h1]
  · simp [watchdogStep, watchdogTriggers, h2]

/-- C2 amended: after a forced reattachment resets the last-activity
timestamp to `T`, a watchdog check at `T2` retriggers nothing precisely
while `T2 - T` is within the 1.5 s threshold window; the actual next
check happens one watchdog interval (2.0 s) later, which lies outside the
window, so it does retrigger when no traffic resumed. -/
theorem c2_no_retrigger_within_threshold_window (T T2 : ℚ) :
    ((watchdogStep T2 (some T)).1 = false ↔ T2 - T ≤ inactivityThreshold) ∧
    (watchdogStep (T + watchdogInterval) (some T)).1 = true := by
  constructor
  · by_cases h : T2 - T ≤ inactivityThreshold
    · simp [watchdogStep, watchdogTriggers, h]
    · simp [watchdogStep, watchdogTriggers, h]
  · have hlt : inactivityThreshold < watchdogInterval := by
      norm_num [inactivityThreshold, watchdogInterval]
    simp [watchdogStep, watchdogTriggers, hlt]

/-! ### Helper lemmas for the real-valued claims -/

lemma rsrpOfDistance_strictAnti (d1 d2 : ℝ) (h1 : 0 < d1) (h12 : d1 < d2) :
    rsrpOfDistance d2 < rsrpOfDistance d1 := by
  have hlog : Real.logb 10 d1 < Real.logb 10 d2 :=
    Real.logb_lt_logb (by norm_num) h1 h12
  unfold rsrpOfDistance
  linarith

lemma logb_ten_lower : 1 / 2 < Real.logb 10 3.7 := by
  have hb : (1 : ℝ) < 10 := by norm_num
  rw [Real.lt_logb_iff_rpow_lt hb (by norm_num)]
  have hsq : (10 : ℝ) ^ (1 / 2 : ℝ) = Real.sqrt 10 := (Real.sqrt_eq_rpow 10).symm
  rw [hsq, Real.sqrt_lt' (by norm_num)]
  norm_num

lemma logb_ten_upper : Real.logb 10 3.7 < 1 := by
  have hb : (1 : ℝ) < 10 := by norm_num
  rw [Real.logb_lt_iff_lt_rpow hb (by norm_num)]
  rw [Real.rpow_one]
  norm_num

lemma dist3D_xaxis (a : ℝ) (ha : 0 ≤ a) :
    dist3D ⟨0, 0, 0⟩ ⟨a, 0, 0⟩ = a := by
  have h : ((0 : ℝ) - a) ^ 2 + ((0 : ℝ) - 0) ^ 2 + ((0 : ℝ) - 0) ^ 2 = a ^ 2 := by
    ring
  unfold dist3D
  dsimp
  rw [h, Real.sqrt_sq ha]

lemma dist3D_yaxis (a : ℝ) (ha : 0 ≤ a) :
    dist3D ⟨0, 0, 0⟩ ⟨0, a, 0⟩ = a := by
  have h : ((0 : ℝ) - 0) ^ 2 + ((0 : ℝ) - a) ^ 2 + ((0 : ℝ) - 0) ^ 2 = a ^ 2 := by
    ring
  unfold dist3D
  dsimp
  rw [h, Real.sqrt_sq ha]

lemma rsrpOfDistance_pow10 (n : ℕ) :
    rsrpOfDistance ((10 : ℝ) ^ n) =
      35 - (32.4 + 21 * n + 20 * Real.logb 10 3.7) := by
  unfold rsrpOfDistance
  rw [Real.logb_pow, Real.logb_self_eq_one (by norm_num), mul_one]

lemma scanBest_all_le (ue : Vec3) :
    ∀ (gs : List Vec3) (i : ℕ) (b : ℝ × ℕ × ℝ),
      (∀ g ∈ gs, rsrpAt ue g ≤ b.1) → scanBest ue i b gs = b := by
  intro gs
  induction gs with
  | nil => intro i b _; rfl
  | cons g gs ih =>
      intro i b h
      have hg : rsrpAt ue g ≤ b.1 := h g (by simp)
      simp only [scanBest]
      rw [if_neg (not_lt.mpr hg)]
      exact ih (i + 1) b (fun g2 hg2 => h g2 (by simp [hg2]))

lemma scanBest_first_max (ue : Vec3) :
    ∀ (gs : List Vec3) (j : ℕ) (hj : j < gs.length) (i : ℕ) (b : ℝ × ℕ × ℝ),
      (∀ k (hk : k < gs.length),
          rsrpAt ue (gs.get ⟨k, hk⟩) ≤ rsrpAt ue (gs.get ⟨j, hj⟩)) →
      (∀ k (hk : k < j),
          rsrpAt ue (gs.get ⟨k, lt_trans hk hj⟩) < rsrpAt ue (gs.get ⟨j, hj⟩)) →
      b.1 < rsrpAt ue (gs.get ⟨j, hj⟩) →
      (scanBest ue i b gs).2.1 = i + j := by
  intro gs
  induction gs with
  | nil => intro j hj; exact absurd hj (Nat.not_lt_zero j)
  | cons g gs ih =>
      intro j hj i b hmax hfirst hb
      cases j with
      | zero =>
          have hb0 : b.1 < rsrpAt ue g := hb
          simp only [scanBest]
          rw [if_pos hb0]
          have hle : ∀ g2 ∈ gs, rsrpAt ue g2 ≤ (rsrpAt ue g, i, dist3D ue g).1 := by
            intro g2 hg2
            obtain ⟨⟨k, hk⟩, hget⟩ := List.get_of_mem hg2
            have := hmax (k + 1) (Nat.succ_lt_succ hk)
            rw [← hget]
            exact this
          rw [scanBest_all_le ue gs (i + 1) _ hle]
          simp
      | succ j2 =>
          have hj2 : j2 < gs.length := Nat.lt_of_succ_lt_succ hj
          have h0 : rsrpAt ue g < rsrpAt ue (gs.get ⟨j2, hj2⟩) :=
            hfirst 0 (Nat.succ_pos j2)
          simp only [scanBest]
          by_cases hc : b.1 < rsrpAt ue g
          · rw [if_pos hc]
            have hres := ih j2 hj2 (i + 1) (rsrpAt ue g, i, dist3D ue g)
              (fun k hk => hmax (k + 1) (Nat.succ_lt_succ hk))
              (fun k hk => hfirst (k + 1) (Nat.succ_lt_succ hk))
              h0
            rw [hres]
            omega
          · rw [if_neg hc]
            have hb2 : b.1 < rsrpAt ue (gs.get ⟨j2, hj2⟩) := hb
            have hres := ih j2 hj2 (i + 1) b
              (fun k hk => hmax (k + 1) (Nat.succ_lt_succ hk))
              (fun k hk => hfirst (k + 1) (Nat.succ_lt_succ hk))
              hb2
            rw [hres]
            omega

/-! ### Real-valued claims -/

/-- C6: the RSRP proxy computed from the fixed 35 dBm transmit power and
the 3GPP UMi path-loss formula is strictly decreasing in the 3D distance,
for every positive distance. -/
theorem c6_rsrp_strictly_decreasing_in_distance (d1 d2 : ℝ)
    (h1 : 0 < d1) (h12 : d1 < d2) :
    rsrpOfDistance d2 < rsrpOfDistance d1 :=
  rsrpOfDistance_strictAnti d1 d2 h1 h12

/-- Witness for C6: the proxy at distance 10 m is strictly below the
proxy at distance 1 m. -/
theorem c6_rsrp_strictly_decreasing_in_distance_witness :
    (0 : ℝ) < 1 ∧ (1 : ℝ) < 10 ∧ rsrpOfDistance 10 < rsrpOfDistance 1 :=
  ⟨by norm_num, by norm_num,
   c6_rsrp_strictly_decreasing_in_distance 1 10 (by norm_num) (by norm_num)⟩

/-- C9 counterexample: the entity sits at the origin; cell 0 is at
distance 10^8 m and cells 1 and 2 both at distance 10^7 m.  Cells 1 and 2
tie with the strictly best proxy, so the lowest id among the maximizers
is 1 — but because every proxy is below the loop's -150 dBm
initialisation, no iteration ever updates the running best and the
selection reports cell 0. -/
theorem c9_counterexample_sentinel_floor :
    rsrpAt ⟨0, 0, 0⟩ ⟨(10 : ℝ) ^ 7, 0, 0⟩ = rsrpAt ⟨0, 0, 0⟩ ⟨0, (10 : ℝ) ^ 7, 0⟩ ∧
    rsrpAt ⟨0, 0, 0⟩ ⟨(10 : ℝ) ^ 8, 0, 0⟩ < rsrpAt ⟨0, 0, 0⟩ ⟨(10 : ℝ) ^ 7, 0, 0⟩ ∧
    (selectBestCell ⟨0, 0, 0⟩
        [⟨(10 : ℝ) ^ 8, 0, 0⟩, ⟨(10 : ℝ) ^ 7, 0, 0⟩, ⟨0, (10 : ℝ) ^ 7, 0⟩]).2.1 = 0 := by
  have hx7 : dist3D ⟨0, 0, 0⟩ ⟨(10 : ℝ) ^ 7, 0, 0⟩ = (10 : ℝ) ^ 7 :=
    dist3D_xaxis _ (by positivity)
  have hy7 : dist3D ⟨0, 0, 0⟩ ⟨0, (10 : ℝ) ^ 7, 0⟩ = (10 : ℝ) ^ 7 :=
    dist3D_yaxis _ (by positivity)
  have hx8 : dist3D ⟨0, 0, 0⟩ ⟨(10 : ℝ) ^ 8, 0, 0⟩ = (10 : ℝ) ^ 8 :=
    dist3D_xaxis _ (by positivity)
  have hL := logb_ten_lower
  have hU := logb_ten_upper
  have hr7 : rsrpAt ⟨0, 0, 0⟩ ⟨(10 : ℝ) ^ 7, 0, 0⟩ =
      35 - (32.4 + 21 * (7 : ℕ) + 20 * Real.logb 10 3.7) := by
    rw [rsrpAt, hx7, rsrpOfDistance_pow10]
  have hr7y : rsrpAt ⟨0, 0, 0⟩ ⟨0, (10 : ℝ) ^ 7, 0⟩ =
      35 - (32.4 + 21 * (7 : ℕ) + 20 * Real.logb 10 3.7) := by
    rw [rsrpAt, hy7, rsrpOfDistance_pow10]
  have hr8 : rsrpAt ⟨0, 0, 0⟩ ⟨(10 : ℝ) ^ 8, 0, 0⟩ =
      35 - (32.4 + 21 * (8 : ℕ) + 20 * Real.logb 10 3.7) := by
    rw [rsrpAt, hx8, rsrpOfDistance_pow10]
  refine ⟨by rw [hr7, hr7y], by rw [hr7, hr8]; push_cast; linarith, ?_⟩
  have h8 : ¬ ((-150 : ℝ) < rsrpAt ⟨0, 0, 0⟩ ⟨(10 : ℝ) ^ 8, 0, 0⟩) := by
    rw [hr8]; push_cast; linarith
  have h7 : ¬ ((-150 : ℝ) < rsrpAt ⟨0, 0, 0⟩ ⟨(10 : ℝ) ^ 7, 0, 0⟩) := by
    rw [hr7]; push_cast; linarith
  have h7y : ¬ ((-150 : ℝ) < rsrpAt ⟨0, 0, 0⟩ ⟨0, (10 : ℝ) ^ 7, 0⟩) := by
    rw [hr7y]; push_cast; linarith
  simp only [selectBestCell, scanBest]
  rw [if_neg h8, if_neg h7, if_neg h7y]

/-- C9 amended: when the maximal proxy value exceeds the loop's -150 dBm
initialisation, the selection does return the lowest cell id among the
maximizers (ascending-id scan with a strictly-greater comparison); if
every cell's proxy is at or below -150 dBm, the selection reports the
initialisation values, i.e. cell id 0, regardless of the maximizers. -/
theorem c9_lowest_id_among_maximizers (ue : Vec3) (gnbs : List Vec3) (j : ℕ)
    (hj : j < gnbs.length)
    (hmax : ∀ k (hk : k < gnbs.length),
        rsrpAt ue (gnbs.get ⟨k, hk⟩) ≤ rsrpAt ue (gnbs.get ⟨j, hj⟩))
    (hfirst : ∀ k (hk : k < j),
        rsrpAt ue (gnbs.get ⟨k, lt_trans hk hj⟩) < rsrpAt ue (gnbs.get ⟨j, hj⟩))
    (hsent : (-150 : ℝ) < rsrpAt ue (gnbs.get ⟨j, hj⟩)) :
    (selectBestCell ue gnbs).2.1 = j := by
  have h := scanBest_first_max ue gnbs j hj 0 (-150, 0, 0) hmax hfirst hsent
  rw [selectBestCell, h]
  omega

/-- Witness for the amended C9: with cells at distances 10 m (id 0) and
100 m (id 1), cell 0 is the unique maximizer and is selected. -/
theorem c9_lowest_id_among_maximizers_witness :
    (selectBestCell ⟨0, 0, 0⟩ [⟨10, 0, 0⟩, ⟨100, 0, 0⟩]).2.1 = 0 := by
  have h10 : dist3D ⟨0, 0, 0⟩ ⟨10, 0, 0⟩ = 10 := dist3D_xaxis 10 (by norm_num)
  have h100 : dist3D ⟨0, 0, 0⟩ ⟨100, 0, 0⟩ = 100 := dist3D_xaxis 100 (by norm_num)
  have hlt : rsrpAt ⟨0, 0, 0⟩ ⟨100, 0, 0⟩ < rsrpAt ⟨0, 0, 0⟩ ⟨10, 0, 0⟩ := by
    rw [rsrpAt, rsrpAt, h10, h100]
    exact rsrpOfDistance_strictAnti 10 100 (by norm_num) (by norm_num)
  have hsent : (-150 : ℝ) < rsrpAt ⟨0, 0, 0⟩ ⟨10, 0, 0⟩ := by
    have h1 : rsrpOfDistance 10 = 35 - (32.4 + 21 * 1 + 20 * Real.logb 10 3.7) := by
      unfold rsrpOfDistance
      rw [Real.logb_self_eq_one (by norm_num)]
    have hU := logb_ten_upper
    rw [rsrpAt, h10, h1]
    linarith
  refine c9_lowest_id_among_maximizers ⟨0, 0, 0⟩ [⟨10, 0, 0⟩, ⟨100, 0, 0⟩] 0
    (by norm_num) ?_ ?_ hsent
  · intro k hk
    match k, hk with
    | 0, _ => exact le_refl _
    | 1, _ => exact le_of_lt hlt
  · intro k hk
    exact absurd hk (Nat.not_lt_zero k)

/-- C10: every position written by the referee movement tick lies exactly
on the circle of radius 60 m centred at the origin at height 1.7 m — it
is `(60 cos θ, 60 sin θ, 1.7)` for some angle θ — and each invocation
advances the entity's angle by exactly `(ARBITRO_SPEED * 0.5) /
CAMPO_RADIUS`. -/
theorem c10_referee_moves_on_circle (ueId k : ℕ) :
    (arbitroWrittenPos ueId k).x ^ 2 + (arbitroWrittenPos ueId k).y ^ 2
        = CAMPO_RADIUS ^ 2 ∧
    (arbitroWrittenPos ueId k).z = ARBITRO_HEIGHT ∧
    arbitroAngle ueId (k + 1) = arbitroAngle ueId k + ARBITRO_SPEED * 0.5 / CAMPO_RADIUS ∧
    ∃ θ : ℝ, arbitroWrittenPos ueId k = posOnField θ := by
  refine ⟨?_, rfl, rfl, ⟨arbitroAngle ueId k, rfl⟩⟩
  unfold arbitroWrittenPos posOnField
  dsimp
  have h := Real.sin_sq_add_cos_sq (arbitroAngle ueId k)
  have h2 : (CAMPO_RADIUS * Real.cos (arbitroAngle ueId k)) ^ 2 +
      (CAMPO_RADIUS * Real.sin (arbitroAngle ueId k)) ^ 2 =
      CAMPO_RADIUS ^ 2 *
        (Real.sin (arbitroAngle ueId k) ^ 2 + Real.cos (arbitroAngle ueId k) ^ 2) := by
    ring
  rw [h2, h, mul_one]

end Stadium
